import Mathlib

/-!
Verification of the RunPod VOICEVOX job handler (src/handler.py).

The development shallowly embeds the handler module:
- Python values appearing in job inputs are modeled by `PyVal`; the builtin
  coercions `int(...)` and `float(...)` are modeled by `pyInt` and `pyFloat`
  (Python floats are modeled as rationals: the handler only stores and
  forwards them, no claim depends on binary floating-point rounding).
- The VOICEVOX engine, an external collaborator, is modeled by a record of
  fallible operations (`EngineBehavior`); the fallible constructions done by
  the initialization path are modeled by `InitBehavior`.
- A Python exception that is raised and NOT caught by the handler is the
  `Outcome.raised` constructor; a returned dict is `Outcome.response`.
- The observable engine interactions of a call (constructions, accent-phrase
  requests, synthesis calls) are recorded in an event trace.
-/

set_option autoImplicit false

namespace Voicevox

/-- A Python value that can appear in the job input dict.  Python floats are
modeled as rationals (the handler never does float arithmetic, it only
coerces and forwards the values). -/
inductive PyVal where
  | vstr (s : String)
  | vint (n : Int)
  | vfloat (q : ℚ)
  | vbool (b : Bool)
  | vnone
  deriving DecidableEq

/-- Python truthiness, as used by the source line `if not text:`.
A string is truthy iff non-empty, numbers iff non-zero, None is falsy. -/
def pyTruthy : PyVal → Bool
  | .vstr s => !(s == "")
  | .vint n => !(n == 0)
  | .vfloat q => !(q == 0)
  | .vbool b => b
  | .vnone => false

/-- Value of a non-empty digit string (most significant digit first). -/
def digitsVal (cs : List Char) : Nat :=
  cs.foldl (fun a c => a * 10 + (c.toNat - 48)) 0

/-- Parse a non-empty all-digit character list. -/
def parseNatDigits (cs : List Char) : Option Nat :=
  if cs ≠ [] ∧ cs.all Char.isDigit then some (digitsVal cs) else none

/-- Model of Python `int(string)`: optional sign followed by digits.
(The builtin also strips whitespace and accepts underscores; those cases are
not exercised by any claim.) -/
def parseIntStr (s : String) : Option Int :=
  match s.toList with
  | '-' :: rest => (parseNatDigits rest).map (fun n => -(n : Int))
  | '+' :: rest => (parseNatDigits rest).map (fun n => (n : Int))
  | cs => (parseNatDigits cs).map (fun n => (n : Int))

/-- Unsigned decimal literal: digits, optionally with one decimal point. -/
def parseUnsignedDec (cs : List Char) : Option ℚ :=
  let intPart := cs.takeWhile (fun c => !(c == '.'))
  let rest := cs.dropWhile (fun c => !(c == '.'))
  match rest with
  | [] => (parseNatDigits cs).map (fun n => (n : ℚ))
  | _ :: frac =>
    if (intPart ≠ [] ∨ frac ≠ []) ∧ intPart.all Char.isDigit ∧ frac.all Char.isDigit
        ∧ !(frac.contains '.') then
      some ((digitsVal intPart : ℚ) + (digitsVal frac : ℚ) / (10 ^ frac.length))
    else none

/-- Model of Python `float(string)`: optionally signed decimal literal.
(The builtin also accepts exponents, inf and nan; not exercised by claims.) -/
def parseFloatStr (s : String) : Option ℚ :=
  match s.toList with
  | '-' :: rest => (parseUnsignedDec rest).map (fun q => -q)
  | '+' :: rest => parseUnsignedDec rest
  | cs => parseUnsignedDec cs

/-- Truncation toward zero, as Python `int(float)` does. -/
def ratTrunc (q : ℚ) : Int :=
  if q < 0 then -((-q).floor) else q.floor

/-- Model of Python `int(v)`.  `none` models the raised `ValueError` or
`TypeError` for non-coercible values. -/
def pyInt : PyVal → Option Int
  | .vint n => some n
  | .vbool b => some (if b then 1 else 0)
  | .vfloat q => some (ratTrunc q)
  | .vstr s => parseIntStr s
  | .vnone => none

/-- Model of Python `float(v)`.  `none` models the raised `ValueError` or
`TypeError` for non-coercible values. -/
def pyFloat : PyVal → Option ℚ
  | .vfloat q => some q
  | .vint n => some (n : ℚ)
  | .vbool b => some (if b then 1 else 0)
  | .vstr s => parseFloatStr s
  | .vnone => none

/-! ### Base64 (RFC 4648), modeling `base64.b64encode(...).decode("utf-8")` -/

/-- The 64 base64 digit characters, in order. -/
def b64Chars : List Char :=
  ['A', 'B', 'C', 'D', 'E', 'F', 'G', 'H', 'I', 'J', 'K', 'L', 'M',
   'N', 'O', 'P', 'Q', 'R', 'S', 'T', 'U', 'V', 'W', 'X', 'Y', 'Z',
   'a', 'b', 'c', 'd', 'e', 'f', 'g', 'h', 'i', 'j', 'k', 'l', 'm',
   'n', 'o', 'p', 'q', 'r', 's', 't', 'u', 'v', 'w', 'x', 'y', 'z',
   '0', '1', '2', '3', '4', '5', '6', '7', '8', '9', '+', '/']

/-- Digit character for a 6-bit group. -/
def b64Char (n : Nat) : Char := b64Chars.getD n 'A'

/-- Index of a base64 digit character, `none` for non-digit characters. -/
def b64Index (c : Char) : Option Nat := b64Chars.findIdx? (fun x => x == c)

/-- Base64 encoding of a byte list (strings are modeled as char lists). -/
def b64Encode : List Nat → List Char
  | [] => []
  | [b1] => [b64Char (b1 / 4), b64Char (b1 % 4 * 16), '=', '=']
  | [b1, b2] => [b64Char (b1 / 4), b64Char (b1 % 4 * 16 + b2 / 16), b64Char (b2 % 16 * 4), '=']
  | b1 :: b2 :: b3 :: rest =>
    b64Char (b1 / 4) :: b64Char (b1 % 4 * 16 + b2 / 16) :: b64Char (b2 % 16 * 4 + b3 / 64) ::
      b64Char (b3 % 64) :: b64Encode rest

/-- Base64 decoding (chunkwise; accepts the strings `b64Encode` produces). -/
def b64Decode : List Char → Option (List Nat)
  | [] => some []
  | c1 :: c2 :: c3 :: c4 :: rest =>
    (b64Index c1).bind fun n1 =>
    (b64Index c2).bind fun n2 =>
    if c3 = '=' then
      (b64Decode rest).map fun ds => (n1 * 4 + n2 / 16) :: ds
    else
      (b64Index c3).bind fun n3 =>
      if c4 = '=' then
        (b64Decode rest).map fun ds => (n1 * 4 + n2 / 16) :: (n2 % 16 * 16 + n3 / 4) :: ds
      else
        (b64Index c4).bind fun n4 =>
        (b64Decode rest).map fun ds =>
          (n1 * 4 + n2 / 16) :: (n2 % 16 * 16 + n3 / 4) :: (n3 % 4 * 64 + n4) :: ds
  | _ => none

theorem b64Index_b64Char : ∀ n < 64, b64Index (b64Char n) = some n := by decide

theorem b64Char_ne_pad : ∀ n < 64, b64Char n ≠ '=' := by decide

/-- Decoding inverts encoding on byte lists. -/
theorem b64_decode_encode (bs : List Nat) (hb : ∀ b ∈ bs, b < 256) :
    b64Decode (b64Encode bs) = some bs := by
  match bs with
  | [] => rfl
  | [b1] =>
    have h1 : b1 < 256 := hb b1 (by simp)
    simp only [b64Encode, b64Decode]
    rw [b64Index_b64Char (b1 / 4) (by omega), b64Index_b64Char (b1 % 4 * 16) (by omega)]
    simp only [Option.some_bind, if_pos rfl]
    simp [b64Decode]
    omega
  | [b1, b2] =>
    have h1 : b1 < 256 := hb b1 (by simp)
    have h2 : b2 < 256 := hb b2 (by simp)
    simp only [b64Encode, b64Decode]
    rw [b64Index_b64Char (b1 / 4) (by omega),
      b64Index_b64Char (b1 % 4 * 16 + b2 / 16) (by omega)]
    simp only [Option.some_bind]
    rw [if_neg (b64Char_ne_pad (b2 % 16 * 4) (by omega))]
    rw [b64Index_b64Char (b2 % 16 * 4) (by omega)]
    simp only [Option.some_bind, if_pos rfl]
    simp [b64Decode]
    omega
  | b1 :: b2 :: b3 :: rest =>
    have h1 : b1 < 256 := hb b1 (by simp)
    have h2 : b2 < 256 := hb b2 (by simp)
    have h3 : b3 < 256 := hb b3 (by simp)
    have ih : b64Decode (b64Encode rest) = some rest :=
      b64_decode_encode rest (fun b h => hb b (by simp [h]))
    simp only [b64Encode, b64Decode]
    rw [b64Index_b64Char (b1 / 4) (by omega),
      b64Index_b64Char (b1 % 4 * 16 + b2 / 16) (by omega)]
    simp only [Option.some_bind]
    rw [if_neg (b64Char_ne_pad (b2 % 16 * 4 + b3 / 64) (by omega))]
    rw [b64Index_b64Char (b2 % 16 * 4 + b3 / 64) (by omega)]
    simp only [Option.some_bind]
    rw [if_neg (b64Char_ne_pad (b3 % 64) (by omega))]
    rw [b64Index_b64Char (b3 % 64) (by omega)]
    simp only [Option.some_bind, ih, Option.map_some']
    simp only [Option.some.injEq, List.cons.injEq, and_true]
    refine ⟨?_, ?_, ?_⟩ <;> omega

/-! ### WAV container, modeling `sf.write(buffer, wave, 24000, format=WAV, subtype=PCM_16)`

The float32-to-int16 sample quantization performed by soundfile is abstracted:
the engine model emits integer samples directly (no claim constrains the
quantization).  The container layout (44-byte canonical RIFF/WAVE header with
the sample rate at offset 24, little-endian 16-bit PCM mono data) is modeled
byte for byte. -/

/-- Little-endian two-byte encoding of one 16-bit PCM sample (two's complement). -/
def pcm16Bytes (s : Int) : List Nat :=
  [(s % 65536).toNat % 256, (s % 65536).toNat / 256]

/-- The WAV bytes produced for a mono 24000 Hz 16-bit PCM sample list. -/
def wavEncode (samples : List Int) : List Nat :=
  82 :: 73 :: 70 :: 70 ::
  (36 + 2 * samples.length) % 256 :: (36 + 2 * samples.length) / 256 % 256 ::
  (36 + 2 * samples.length) / 65536 % 256 :: (36 + 2 * samples.length) / 16777216 % 256 ::
  87 :: 65 :: 86 :: 69 :: 102 :: 109 :: 116 :: 32 ::
  16 :: 0 :: 0 :: 0 :: 1 :: 0 :: 1 :: 0 ::
  192 :: 93 :: 0 :: 0 :: 128 :: 187 :: 0 :: 0 ::
  2 :: 0 :: 16 :: 0 ::
  100 :: 97 :: 116 :: 97 ::
  (2 * samples.length) % 256 :: (2 * samples.length) / 256 % 256 ::
  (2 * samples.length) / 65536 % 256 :: (2 * samples.length) / 16777216 % 256 ::
  samples.flatMap pcm16Bytes

/-- Reads the sampling rate out of a byte list that is a valid WAV container
(RIFF and WAVE magic, fmt and data chunk markers at their canonical offsets);
`none` if the bytes are not such a container. -/
def wavRateOf : List Nat → Option Nat
  | 82 :: 73 :: 70 :: 70 :: _ :: _ :: _ :: _ ::
    87 :: 65 :: 86 :: 69 :: 102 :: 109 :: 116 :: 32 ::
    _ :: _ :: _ :: _ :: _ :: _ :: _ :: _ ::
    r0 :: r1 :: r2 :: r3 :: _ :: _ :: _ :: _ ::
    _ :: _ :: _ :: _ ::
    100 :: 97 :: 116 :: 97 :: _ =>
      some (r0 + 256 * r1 + 65536 * r2 + 16777216 * r3)
  | _ => none

theorem wavRateOf_wavEncode (samples : List Int) :
    wavRateOf (wavEncode samples) = some 24000 := rfl

theorem pcm16Bytes_lt (s : Int) : ∀ b ∈ pcm16Bytes s, b < 256 := by
  intro b hb
  simp only [pcm16Bytes, List.mem_cons, List.not_mem_nil, or_false] at hb
  rcases hb with rfl | rfl <;> omega

/-- Every byte of the WAV encoding is a byte. -/
theorem wavEncode_lt (samples : List Int) : ∀ b ∈ wavEncode samples, b < 256 := by
  intro b hb
  simp only [wavEncode, List.mem_cons] at hb
  rcases hb with rfl | rfl | rfl | rfl | rfl | rfl | rfl | rfl | rfl | rfl | rfl | rfl | rfl | rfl
    | rfl | rfl | rfl | rfl | rfl | rfl | rfl | rfl | rfl | rfl | rfl | rfl | rfl | rfl | rfl | rfl
    | rfl | rfl | rfl | rfl | rfl | rfl | rfl | rfl | rfl | rfl | rfl | rfl | rfl | rfl | hb
  all_goals first
    | omega
    | (obtain ⟨s, _, h⟩ := List.mem_flatMap.1 hb
       exact pcm16Bytes_lt s b h)

/-- The encoded audio string is never empty (the WAV header alone is 44 bytes). -/
theorem b64Encode_wavEncode_ne_nil (samples : List Int) :
    b64Encode (wavEncode samples) ≠ [] := by
  simp only [wavEncode, b64Encode]
  exact List.cons_ne_nil _ _

/-! ### The engine collaborator and the initialization path -/

/-- Accent phrases are opaque engine data; modeled by abstract identifiers. -/
abbrev AccentPhrase := Nat

/-- The AudioQuery record, with exactly the fields the handler constructs
(source lines 145-155). -/
structure AudioQuery where
  accent_phrases : List AccentPhrase
  speedScale : ℚ
  pitchScale : ℚ
  intonationScale : ℚ
  volumeScale : ℚ
  prePhonemeLength : ℚ
  postPhonemeLength : ℚ
  outputSamplingRate : Nat
  outputStereo : Bool
  deriving DecidableEq

/-- The AudioQuery the handler builds: caller scalars over the fixed output
format (24000 Hz, mono), source lines 145-155. -/
def mkAudioQuery (phrases : List AccentPhrase) (spd pit ito vol prl pol : ℚ) : AudioQuery :=
  { accent_phrases := phrases
    speedScale := spd
    pitchScale := pit
    intonationScale := ito
    volumeScale := vol
    prePhonemeLength := prl
    postPhonemeLength := pol
    outputSamplingRate := 24000
    outputStereo := false }

/-- Behavior of a constructed TTSEngine, as consumed by the handler.  The
engine is external: each operation may return a value or raise (modeled by
`Except`, the `String` being the exception message `str(e)`).  The raw job
values for text and flags are passed through unconverted, as the source does.
`computeDefaultQuery` models the optional default-query capability named by
the specification; the source handler never consults it. -/
structure EngineBehavior where
  createAccentPhrases : PyVal → Int → PyVal → Except String (List AccentPhrase)
  synthesizeWave : AudioQuery → Int → PyVal → Except String (List Int)
  computeDefaultQuery : Option (PyVal → Int → Except String AudioQuery)

/-- Outcomes of the fallible constructions run by the initialization path
(CoreWrapper, UserDictManager, PresetManager, TTSEngine) together with the
two filesystem existence checks it performs.  The source retries the
UserDictManager construction once on TypeError; the retry is the identical
zero-argument call, so the pair is modeled as a single fallible construction. -/
structure InitBehavior where
  coreDirExists : Bool
  presetPathExists : Bool
  coreConstruct : String → Except String Unit
  userDictConstruct : Except String Unit
  presetConstruct : String → Except String Unit
  engineConstruct : Except String EngineBehavior

/-- Observable events of one handler invocation: the four construction side
effects of the initialization path, and the engine calls. -/
inductive Event where
  | coreInit
  | userDictInit
  | presetInit
  | facadeInit
  | accentPhrasesCall (text : PyVal) (styleId : Int) (katakana : PyVal)
  | synthesizeCall (query : AudioQuery) (styleId : Int) (upspeak : PyVal)
  | defaultQueryCall (text : PyVal) (styleId : Int)
  deriving DecidableEq

/-- The four initialization side effects. -/
def isInitEvent : Event → Bool
  | .coreInit => true
  | .userDictInit => true
  | .presetInit => true
  | .facadeInit => true
  | _ => false

/-- The initialization path (source `initialize_engine`, lines 41-105).
State is the module-global `tts_engine` (`none` = unset).  Returns the result
(`Except.error` models a raised exception escaping the function), the new
global state, and the constructions that ran.  The global is assigned only by
line 93, after every construction has succeeded. -/
def initEngine (env : InitBehavior) (st : Option EngineBehavior) :
    Except String EngineBehavior × Option EngineBehavior × List Event :=
  match st with
  | some e => (Except.ok e, some e, [])
  | none =>
    let coreDir := if env.coreDirExists then "/app/voicevox_core" else "voicevox_core"
    match env.coreConstruct coreDir with
    | Except.error m => (Except.error m, none, [Event.coreInit])
    | Except.ok _ =>
      match env.userDictConstruct with
      | Except.error m => (Except.error m, none, [Event.coreInit, Event.userDictInit])
      | Except.ok _ =>
        let presetPath := if env.presetPathExists then "/app/presets.yaml" else "presets.yaml"
        match env.presetConstruct presetPath with
        | Except.error m =>
          (Except.error m, none, [Event.coreInit, Event.userDictInit, Event.presetInit])
        | Except.ok _ =>
          match env.engineConstruct with
          | Except.error m =>
            (Except.error m, none,
              [Event.coreInit, Event.userDictInit, Event.presetInit, Event.facadeInit])
          | Except.ok e =>
            (Except.ok e, some e,
              [Event.coreInit, Event.userDictInit, Event.presetInit, Event.facadeInit])

/-! ### The job handler -/

/-- The job input dict under the `input` key; a Python dict has no duplicate
keys, lookup is by key. -/
abbrev JobInput := List (String × PyVal)

/-- The missing-text error message (source line 124). -/
def missingTextMsg : String := "Missing \x27text\x27 in input"

/-- Message of the exception raised by a failed `int(...)` coercion; Python
includes the offending literal, a fixed non-empty message suffices here. -/
def intCoerceMsg : String := "invalid literal for int with base 10"

/-- Message of the exception raised by a failed `float(...)` coercion. -/
def floatCoerceMsg : String := "could not convert value to float"

/-- The three response dict shapes the handler can return. -/
inductive Response where
  | errorOnly (error : String)
  | success (audio_base64 : List Char) (sampling_rate : Nat) (status : String)
  | failed (error : String) (status : String)
  deriving DecidableEq

/-- A handler invocation either returns a response dict or lets an exception
escape (modeled by `raised` with the exception message). -/
inductive Outcome where
  | response (r : Response)
  | raised (msg : String)
  deriving DecidableEq

/-- Warm-up step of the handler (source lines 115-117): call the
initialization path when the global engine is unset. -/
def warmup (env : InitBehavior) (st : Option EngineBehavior) :
    Except String EngineBehavior × Option EngineBehavior × List Event :=
  match st with
  | some e => (Except.ok e, some e, [])
  | none => initEngine env none

/-- The six scalar `float(job_input.get(key, default))` coercions of source
lines 147-152, in evaluation order; the first failure raises (is `none`). -/
def scalarsOf (input : JobInput) : Option (ℚ × ℚ × ℚ × ℚ × ℚ × ℚ) :=
  (pyFloat ((List.lookup "speed_scale" input).getD (PyVal.vfloat 1))).bind fun spd =>
  (pyFloat ((List.lookup "pitch_scale" input).getD (PyVal.vfloat 0))).bind fun pit =>
  (pyFloat ((List.lookup "intonation_scale" input).getD (PyVal.vfloat 1))).bind fun ito =>
  (pyFloat ((List.lookup "volume_scale" input).getD (PyVal.vfloat 1))).bind fun vol =>
  (pyFloat ((List.lookup "pre_phoneme_length" input).getD (PyVal.vfloat (1 / 10)))).bind fun prl =>
  (pyFloat ((List.lookup "post_phoneme_length" input).getD (PyVal.vfloat (1 / 10)))).bind fun pol =>
  some (spd, pit, ito, vol, prl, pol)

/-- Body of the handler after a successful warm-up, with `eng` the engine in
hand, `st1` the current global state and `evs0` the trace so far (source
lines 119-189).  The `try` block of lines 128-189 catches every exception
raised inside it and converts it to the failed response shape; the
`int(job_input.get("speaker_id", 1))` coercion of line 126 runs OUTSIDE the
`try`, so its failure is `Outcome.raised`. -/
def handlerBody (eng : EngineBehavior) (st1 : Option EngineBehavior) (evs0 : List Event)
    (job : Option JobInput) : Outcome × Option EngineBehavior × List Event :=
  let input := job.getD []
  let textVal := (List.lookup "text" input).getD PyVal.vnone
  if pyTruthy textVal = false then
    (Outcome.response (Response.errorOnly missingTextMsg), st1, evs0)
  else
    match pyInt ((List.lookup "speaker_id" input).getD (PyVal.vint 1)) with
    | none => (Outcome.raised intCoerceMsg, st1, evs0)
    | some sid =>
      let kata := (List.lookup "enable_katakana_english" input).getD (PyVal.vbool true)
      let evs1 := evs0 ++ [Event.accentPhrasesCall textVal sid kata]
      match eng.createAccentPhrases textVal sid kata with
      | Except.error m => (Outcome.response (Response.failed m "failed"), st1, evs1)
      | Except.ok phrases =>
        match scalarsOf input with
        | none => (Outcome.response (Response.failed floatCoerceMsg "failed"), st1, evs1)
        | some (spd, pit, ito, vol, prl, pol) =>
          let q := mkAudioQuery phrases spd pit ito vol prl pol
          let up := (List.lookup "enable_interrogative_upspeak" input).getD (PyVal.vbool true)
          let evs2 := evs1 ++ [Event.synthesizeCall q sid up]
          match eng.synthesizeWave q sid up with
          | Except.error m => (Outcome.response (Response.failed m "failed"), st1, evs2)
          | Except.ok wave =>
            (Outcome.response
              (Response.success (b64Encode (wavEncode wave)) 24000 "success"), st1, evs2)

/-- The RunPod handler (source lines 108-189).  A job is `none` when the job
dict has no `input` key, otherwise the input dict.  An initialization failure
during warm-up escapes the handler uncaught (lines 115-117 are outside the
`try` block). -/
def handler (env : InitBehavior) (job : Option JobInput) (st : Option EngineBehavior) :
    Outcome × Option EngineBehavior × List Event :=
  match warmup env st with
  | (Except.error m, st1, evs) => (Outcome.raised m, st1, evs)
  | (Except.ok eng, st1, evs0) => handlerBody eng st1 evs0 job

/-- Sequential processing of several jobs by one worker process: the global
engine state persists across jobs, each job gets its own outcome and trace. -/
def handlerMany (env : InitBehavior) (jobs : List (Option JobInput))
    (st : Option EngineBehavior) :
    List (Outcome × List Event) × Option EngineBehavior :=
  match jobs with
  | [] => ([], st)
  | j :: rest =>
    let r := handler env j st
    let rs := handlerMany env rest r.2.1
    ((r.1, r.2.2) :: rs.1, rs.2)

/-- Modelled from the spec: the query-first strategy of spec section 4.3,
which the specification says the query builder must also support.  It is
absent from the source: the engine would compute a full default query and
only the scalar fields present in the raw input would be overlaid (a sparse
overlay, absent fields keep the engine-computed defaults). -/
def specQueryFirstOverlay (dq : AudioQuery) (input : JobInput) : Option AudioQuery := do
  let spd ← match List.lookup "speed_scale" input with
    | none => some dq.speedScale
    | some v => pyFloat v
  let pit ← match List.lookup "pitch_scale" input with
    | none => some dq.pitchScale
    | some v => pyFloat v
  let ito ← match List.lookup "intonation_scale" input with
    | none => some dq.intonationScale
    | some v => pyFloat v
  let vol ← match List.lookup "volume_scale" input with
    | none => some dq.volumeScale
    | some v => pyFloat v
  let prl ← match List.lookup "pre_phoneme_length" input with
    | none => some dq.prePhonemeLength
    | some v => pyFloat v
  let pol ← match List.lookup "post_phoneme_length" input with
    | none => some dq.postPhonemeLength
    | some v => pyFloat v
  pure { dq with
    speedScale := spd, pitchScale := pit, intonationScale := ito,
    volumeScale := vol, prePhonemeLength := prl, postPhonemeLength := pol }

/-! ### Concrete fixtures used by witnesses and counterexamples -/

/-- An engine whose operations always succeed. -/
def okEngine : EngineBehavior :=
  { createAccentPhrases := fun _ _ _ => Except.ok [7]
    synthesizeWave := fun _ _ _ => Except.ok [0, 1000, -1000]
    computeDefaultQuery := none }

/-- An initialization environment in which every construction succeeds. -/
def okInit : InitBehavior :=
  { coreDirExists := true
    presetPathExists := true
    coreConstruct := fun _ => Except.ok ()
    userDictConstruct := Except.ok ()
    presetConstruct := fun _ => Except.ok ()
    engineConstruct := Except.ok okEngine }

/-- An initialization environment whose CoreWrapper construction raises. -/
def badInit : InitBehavior :=
  { coreDirExists := true
    presetPathExists := true
    coreConstruct := fun _ => Except.error "boom"
    userDictConstruct := Except.ok ()
    presetConstruct := fun _ => Except.ok ()
    engineConstruct := Except.ok okEngine }

/-- An engine whose synthesis raises with an empty exception message, as a
bare Python `raise Exception()` does. -/
def emptyMsgEngine : EngineBehavior :=
  { createAccentPhrases := fun _ _ _ => Except.ok [7]
    synthesizeWave := fun _ _ _ => Except.error ""
    computeDefaultQuery := none }

/-- The default query an engine with the query-first capability would
compute: its scalar defaults differ from the global hardcoded ones. -/
def qfDefaultQuery : AudioQuery :=
  { accent_phrases := [3]
    speedScale := 1
    pitchScale := 1 / 2
    intonationScale := 3 / 4
    volumeScale := 1
    prePhonemeLength := 1 / 5
    postPhonemeLength := 1 / 5
    outputSamplingRate := 24000
    outputStereo := false }

/-- An engine exposing the query-first capability. -/
def qfEngine : EngineBehavior :=
  { createAccentPhrases := fun _ _ _ => Except.ok [3]
    synthesizeWave := fun _ _ _ => Except.error "no gpu"
    computeDefaultQuery := some (fun _ _ => Except.ok qfDefaultQuery) }

/-! ### Helper lemmas -/

/-- The initialization path only ever records construction events. -/
theorem initEngine_events_init (env : InitBehavior) (st : Option EngineBehavior) :
    ∀ ev ∈ (initEngine env st).2.2, isInitEvent ev = true := by
  intro ev h
  unfold initEngine at h
  dsimp only at h
  repeat' split at h
  all_goals simp only [List.mem_cons, List.not_mem_nil, or_false] at h
  all_goals rcases h with rfl | rfl | rfl | rfl <;> rfl

/-- The warm-up step only ever records construction events. -/
theorem warmup_events (env : InitBehavior) (st : Option EngineBehavior) :
    ∀ ev ∈ (warmup env st).2.2, isInitEvent ev = true := by
  intro ev h
  unfold warmup at h
  split at h
  · simp at h
  · exact initEngine_events_init env none ev h

/-- The handler body never touches the global engine state. -/
theorem handlerBody_state (eng : EngineBehavior) (st1 : Option EngineBehavior)
    (evs0 : List Event) (job : Option JobInput) :
    (handlerBody eng st1 evs0 job).2.1 = st1 := by
  unfold handlerBody
  dsimp only
  repeat' split
  all_goals rfl

/-- With the engine already cached, a handler call leaves the global engine
state untouched. -/
theorem handler_state_cached (env : InitBehavior) (job : Option JobInput)
    (e : EngineBehavior) : (handler env job (some e)).2.1 = some e := by
  unfold handler warmup
  exact handlerBody_state e (some e) [] job

/-- Characterization of handler traces: every recorded event is either an
initialization construction from warm-up, the accent-phrase request, or the
synthesis call on the query the handler built from the current job input. -/
theorem handler_events (env : InitBehavior) (job : Option JobInput)
    (st : Option EngineBehavior) (ev : Event) (h : ev ∈ (handler env job st).2.2) :
    isInitEvent ev = true ∨
    (∃ sid, ev = Event.accentPhrasesCall
        ((List.lookup "text" (job.getD [])).getD PyVal.vnone) sid
        ((List.lookup "enable_katakana_english" (job.getD [])).getD (PyVal.vbool true))) ∨
    (∃ ph spd pit ito vol prl pol sid,
        scalarsOf (job.getD []) = some (spd, pit, ito, vol, prl, pol) ∧
        ev = Event.synthesizeCall (mkAudioQuery ph spd pit ito vol prl pol) sid
          ((List.lookup "enable_interrogative_upspeak" (job.getD [])).getD
            (PyVal.vbool true))) := by
  unfold handler at h
  split at h
  · rename_i m st1 evs heq
    left
    have := warmup_events env st ev
    rw [heq] at this
    exact this h
  · rename_i eng st1 evs0 heq
    have hinit : ∀ e2 ∈ evs0, isInitEvent e2 = true := by
      intro e2 h2
      have := warmup_events env st e2
      rw [heq] at this
      exact this h2
    unfold handlerBody at h
    dsimp only at h
    split at h
    · exact Or.inl (hinit ev h)
    · split at h
      · exact Or.inl (hinit ev h)
      · rename_i sid _
        split at h
        · rw [List.mem_append] at h
          rcases h with h | h
          · exact Or.inl (hinit ev h)
          · simp at h; subst h; exact Or.inr (Or.inl ⟨sid, rfl⟩)
        · rename_i phrases _
          split at h
          · rw [List.mem_append] at h
            rcases h with h | h
            · exact Or.inl (hinit ev h)
            · simp at h; subst h; exact Or.inr (Or.inl ⟨sid, rfl⟩)
          · rename_i spd pit ito vol prl pol hsc
            split at h <;>
            · rw [List.mem_append, List.mem_append] at h
              rcases h with (h | h) | h
              · exact Or.inl (hinit ev h)
              · simp at h; subst h; exact Or.inr (Or.inl ⟨sid, rfl⟩)
              · simp at h; subst h
                exact Or.inr (Or.inr
                  ⟨phrases, spd, pit, ito, vol, prl, pol, sid, hsc, rfl⟩)

/-! ### Claim theorems -/

/-- C6: after the first successful initialization the handle is cached: a
call with the handle cached returns that very handle, leaves the global
unchanged and re-runs no construction side effect (empty trace); and a first
successful call caches exactly the handle it returns, so later calls return
the same one. -/
theorem C6_cached_handle :
    (∀ (env : InitBehavior) (e : EngineBehavior),
        initEngine env (some e) = (Except.ok e, some e, [])) ∧
    (∀ (env : InitBehavior) (e : EngineBehavior) (st1 : Option EngineBehavior)
        (evs : List Event),
        initEngine env none = (Except.ok e, st1, evs) → st1 = some e) := by
  constructor
  · intro env e; rfl
  · intro env e st1 evs h
    unfold initEngine at h
    dsimp only at h
    repeat' split at h
    all_goals simp only [Prod.mk.injEq] at h
    all_goals first
      | exact Except.noConfusion h.1
      | (obtain ⟨h1, h2, h3⟩ := h
         rw [← h2, Except.ok.inj h1])

theorem C6_cached_handle_witness :
    initEngine okInit (some okEngine) = (Except.ok okEngine, some okEngine, []) ∧
    (initEngine okInit none).2.1 = some okEngine :=
  ⟨C6_cached_handle.1 okInit okEngine,
   C6_cached_handle.2 okInit okEngine (initEngine okInit none).2.1
     (initEngine okInit none).2.2 rfl⟩

/-- C7: if any step of initialization raises, no partial handle is cached:
the global engine state after the failed call is still `none`, so a later
call re-runs initialization from scratch. -/
theorem C7_no_partial_cache (env : InitBehavior) (m : String)
    (st1 : Option EngineBehavior) (evs : List Event)
    (h : initEngine env none = (Except.error m, st1, evs)) :
    st1 = none ∧ ∀ env2 : InitBehavior, initEngine env2 st1 = initEngine env2 none := by
  have hst : st1 = none := by
    unfold initEngine at h
    dsimp only at h
    repeat' split at h
    all_goals simp_all
  exact ⟨hst, fun env2 => by rw [hst]⟩

theorem C7_no_partial_cache_witness :
    initEngine badInit none = (Except.error "boom", none, [Event.coreInit]) ∧
    (initEngine badInit none).2.1 = none :=
  ⟨rfl,
   (C7_no_partial_cache badInit "boom" (initEngine badInit none).2.1
     (initEngine badInit none).2.2 rfl).1⟩

/-- C1 counterexample: with the engine not yet initialized, a job whose input
lacks `text` still triggers the full engine initialization (all four
constructions appear in the trace) before the missing-text error is
returned — the claim that no engine initialization is attempted for such a
job is false on the code (the warm-up of lines 115-117 precedes validation). -/
theorem C1_init_attempt_cex :
    (handler okInit (some []) none).2.2 =
      [Event.coreInit, Event.userDictInit, Event.presetInit, Event.facadeInit] ∧
    (handler okInit (some []) none).1 =
      Outcome.response (Response.errorOnly missingTextMsg) :=
  ⟨rfl, rfl⟩

/-- C1 (amended): whenever warm-up yields an engine (already cached, or
initialization succeeds), a job with `text` absent or equal to the empty
string returns exactly the bare missing-text error response, and the trace
holds construction events only: no accent-phrase creation and no synthesis is
attempted — engine initialization, however, does run when not yet cached. -/
theorem C1_missing_text (env : InitBehavior) (job : Option JobInput)
    (st : Option EngineBehavior) (eng : EngineBehavior) (st1 : Option EngineBehavior)
    (evs0 : List Event) (hw : warmup env st = (Except.ok eng, st1, evs0))
    (htext : List.lookup "text" (job.getD []) = none ∨
      List.lookup "text" (job.getD []) = some (PyVal.vstr "")) :
    handler env job st = (Outcome.response (Response.errorOnly missingTextMsg), st1, evs0) ∧
    ∀ ev ∈ evs0, isInitEvent ev = true := by
  constructor
  · have key : handler env job st = handlerBody eng st1 evs0 job := by
      unfold handler; rw [hw]
    rw [key]
    unfold handlerBody
    dsimp only
    rcases htext with htext | htext <;> rw [htext] <;> rfl
  · intro ev h
    have hh := warmup_events env st ev
    rw [hw] at hh
    exact hh h

theorem C1_missing_text_witness :
    warmup okInit none =
      (Except.ok okEngine, some okEngine,
        [Event.coreInit, Event.userDictInit, Event.presetInit, Event.facadeInit]) ∧
    handler okInit (some [("text", PyVal.vstr "")]) none =
      (Outcome.response (Response.errorOnly missingTextMsg), some okEngine,
        [Event.coreInit, Event.userDictInit, Event.presetInit, Event.facadeInit]) :=
  ⟨rfl,
   (C1_missing_text okInit (some [("text", PyVal.vstr "")]) none okEngine (some okEngine)
     [Event.coreInit, Event.userDictInit, Event.presetInit, Event.facadeInit]
     rfl (Or.inr rfl)).1⟩

/-- C10 counterexample: a job without an `input` key, arriving while the
engine is uninitialized and initialization fails, makes the handler raise
(the warm-up of lines 115-117 is outside the `try` block), rather than
return the missing-text error response. -/
theorem C10_init_raises_cex :
    (handler badInit none none).1 = Outcome.raised "boom" := rfl

/-- C10 (amended): whenever warm-up yields an engine (already cached, or
initialization succeeds), a job object without an `input` key is treated as
the empty input dict and yields the missing-text error response rather than
an exception. -/
theorem C10_missing_input_key (env : InitBehavior) (st : Option EngineBehavior)
    (eng : EngineBehavior) (st1 : Option EngineBehavior) (evs0 : List Event)
    (hw : warmup env st = (Except.ok eng, st1, evs0)) :
    handler env none st =
      (Outcome.response (Response.errorOnly missingTextMsg), st1, evs0) := by
  have key : handler env none st = handlerBody eng st1 evs0 none := by
    unfold handler; rw [hw]
  rw [key]
  rfl

theorem C10_missing_input_key_witness :
    warmup okInit (some okEngine) = (Except.ok okEngine, some okEngine, []) ∧
    handler okInit none (some okEngine) =
      (Outcome.response (Response.errorOnly missingTextMsg), some okEngine, []) :=
  ⟨rfl, C10_missing_input_key okInit (some okEngine) okEngine (some okEngine) [] rfl⟩

/-- C2 counterexample: a present but non-coercible `speaker_id` raises out of
the handler uncaught (line 126 runs outside the `try` block), instead of
producing a validation-error response. -/
theorem C2_speaker_uncaught_cex :
    (handler okInit (some [("text", PyVal.vstr "hi"), ("speaker_id", PyVal.vstr "abc")])
        (some okEngine)).1 = Outcome.raised intCoerceMsg := rfl

/-- C2 (amended): after the `speaker_id` coercion of line 126 succeeds, every
error raised inside the `try` block (accent-phrase creation, scalar float
coercion, synthesis) is caught and converted into a response — the handler
never raises past that point; in particular a present but non-coercible
`speed_scale` yields the failed response shape.  The `speaker_id` coercion
itself, however, is outside the `try` block, so its failure raises uncaught
(see the counterexample). -/
theorem C2_try_block_catches (env : InitBehavior) (st : Option EngineBehavior)
    (eng : EngineBehavior) (st1 : Option EngineBehavior) (evs0 : List Event)
    (job : Option JobInput)
    (hw : warmup env st = (Except.ok eng, st1, evs0))
    (htext : pyTruthy ((List.lookup "text" (job.getD [])).getD PyVal.vnone) = true)
    (sid : Int)
    (hsid : pyInt ((List.lookup "speaker_id" (job.getD [])).getD (PyVal.vint 1)) = some sid) :
    (∃ r st2 evs, handler env job st = (Outcome.response r, st2, evs)) ∧
    (∀ v, List.lookup "speed_scale" (job.getD []) = some v → pyFloat v = none →
      ∀ ph, eng.createAccentPhrases ((List.lookup "text" (job.getD [])).getD PyVal.vnone) sid
          ((List.lookup "enable_katakana_english" (job.getD [])).getD (PyVal.vbool true)) =
          Except.ok ph →
      ∃ st2 evs, handler env job st =
        (Outcome.response (Response.failed floatCoerceMsg "failed"), st2, evs)) := by
  have key : handler env job st = handlerBody eng st1 evs0 job := by
    unfold handler; rw [hw]
  rw [key]
  unfold handlerBody
  dsimp only
  rw [if_neg (by simp [htext]), hsid]
  dsimp only
  constructor
  · rcases hacc : eng.createAccentPhrases ((List.lookup "text" (job.getD [])).getD PyVal.vnone)
        sid ((List.lookup "enable_katakana_english" (job.getD [])).getD (PyVal.vbool true))
      with m | ph
    · exact ⟨_, _, _, rfl⟩
    · dsimp only
      rcases hsc : scalarsOf (job.getD []) with _ | ⟨spd, pit, ito, vol, prl, pol⟩
      · exact ⟨_, _, _, rfl⟩
      · dsimp only
        rcases hsyn : eng.synthesizeWave (mkAudioQuery ph spd pit ito vol prl pol) sid
            ((List.lookup "enable_interrogative_upspeak" (job.getD [])).getD (PyVal.vbool true))
          with m | w
        · exact ⟨_, _, _, rfl⟩
        · exact ⟨_, _, _, rfl⟩
  · intro v hv hvf ph hacc
    rw [hacc]
    have hscn : scalarsOf (job.getD []) = none := by
      unfold scalarsOf
      rw [hv]
      simp [hvf]
    rw [hscn]
    exact ⟨_, _, rfl⟩

theorem C2_try_block_catches_witness :
    (∃ r st2 evs,
        handler okInit (some [("text", PyVal.vstr "hi"), ("speed_scale", PyVal.vstr "abc")])
          (some okEngine) = (Outcome.response r, st2, evs)) ∧
    (∃ st2 evs,
        handler okInit (some [("text", PyVal.vstr "hi"), ("speed_scale", PyVal.vstr "abc")])
          (some okEngine) =
          (Outcome.response (Response.failed floatCoerceMsg "failed"), st2, evs)) := by
  have h := C2_try_block_catches okInit (some okEngine) okEngine (some okEngine) []
    (some [("text", PyVal.vstr "hi"), ("speed_scale", PyVal.vstr "abc")]) rfl rfl 1 rfl
  exact ⟨h.1, h.2 (PyVal.vstr "abc") rfl rfl [7] rfl⟩

/-- C5 counterexample: on a valid input with non-empty text, an engine whose
synthesis raises with an empty message (as a bare `raise Exception()` does)
makes the handler return a failure response whose `error` string is empty —
the claimed dichotomy requires a non-empty error string. -/
theorem C5_empty_error_cex :
    (handler okInit (some [("text", PyVal.vstr "hi")]) (some emptyMsgEngine)).1 =
      Outcome.response (Response.failed "" "failed") := rfl

/-- C5 (amended): for every job input whose `text` is a non-empty string and
whose `speaker_id` coerces, whenever warm-up yields an engine, the handler
returns exactly one response: either success with a non-empty audio string
and sampling rate 24000, or the failed shape carrying the caught message
(which is empty exactly when the engine raised with an empty message; an
initialization failure instead escapes uncaught, outside this hypothesis). -/
theorem C5_dichotomy (env : InitBehavior) (st : Option EngineBehavior)
    (eng : EngineBehavior) (st1 : Option EngineBehavior) (evs0 : List Event)
    (job : Option JobInput) (t : String)
    (hw : warmup env st = (Except.ok eng, st1, evs0))
    (htext : List.lookup "text" (job.getD []) = some (PyVal.vstr t))
    (hne : t ≠ "")
    (sid : Int)
    (hsid : pyInt ((List.lookup "speaker_id" (job.getD [])).getD (PyVal.vint 1)) = some sid) :
    ∃ r st2 evs, handler env job st = (Outcome.response r, st2, evs) ∧
      ((∃ b, b ≠ [] ∧ r = Response.success b 24000 "success") ∨
        (∃ m, r = Response.failed m "failed")) := by
  have key : handler env job st = handlerBody eng st1 evs0 job := by
    unfold handler; rw [hw]
  rw [key]
  unfold handlerBody
  dsimp only
  rw [htext]
  simp only [Option.getD_some]
  have htr : pyTruthy (PyVal.vstr t) = true := by simp [pyTruthy, hne]
  rw [if_neg (by simp [htr]), hsid]
  dsimp only
  rcases hacc : eng.createAccentPhrases (PyVal.vstr t) sid
      ((List.lookup "enable_katakana_english" (job.getD [])).getD (PyVal.vbool true))
    with m | ph
  · exact ⟨_, _, _, rfl, Or.inr ⟨m, rfl⟩⟩
  · dsimp only
    rcases hsc : scalarsOf (job.getD []) with _ | ⟨spd, pit, ito, vol, prl, pol⟩
    · exact ⟨_, _, _, rfl, Or.inr ⟨floatCoerceMsg, rfl⟩⟩
    · dsimp only
      rcases hsyn : eng.synthesizeWave (mkAudioQuery ph spd pit ito vol prl pol) sid
          ((List.lookup "enable_interrogative_upspeak" (job.getD [])).getD (PyVal.vbool true))
        with m | w
      · exact ⟨_, _, _, rfl, Or.inr ⟨m, rfl⟩⟩
      · exact ⟨_, _, _, rfl,
          Or.inl ⟨b64Encode (wavEncode w), b64Encode_wavEncode_ne_nil w, rfl⟩⟩

theorem C5_dichotomy_witness :
    ∃ r st2 evs,
      handler okInit (some [("text", PyVal.vstr "hi")]) (some okEngine) =
        (Outcome.response r, st2, evs) ∧
      ((∃ b, b ≠ [] ∧ r = Response.success b 24000 "success") ∨
        (∃ m, r = Response.failed m "failed")) :=
  C5_dichotomy okInit (some okEngine) okEngine (some okEngine) []
    (some [("text", PyVal.vstr "hi")]) "hi" rfl rfl (by decide) 1 rfl

/-- C9: every query the handler passes to the synthesis operation fixes the
output format at 24000 Hz mono; and across a sequence of jobs processed by
an initialized worker, each job's outcome and trace (hence its query) are a
function of that job's own input alone — queries are built fresh per job and
never reused across jobs. -/
theorem C9_query_format_fresh :
    (∀ (env : InitBehavior) (job : Option JobInput) (st : Option EngineBehavior)
        (q : AudioQuery) (sid : Int) (up : PyVal),
        Event.synthesizeCall q sid up ∈ (handler env job st).2.2 →
        q.outputSamplingRate = 24000 ∧ q.outputStereo = false) ∧
    (∀ (env : InitBehavior) (jobs : List (Option JobInput)) (e : EngineBehavior),
        handlerMany env jobs (some e) =
          (jobs.map (fun j => ((handler env j (some e)).1, (handler env j (some e)).2.2)),
            some e)) := by
  constructor
  · intro env job st q sid up h
    rcases handler_events env job st _ h with hinit | ⟨sid2, heq⟩
      | ⟨ph, spd, pit, ito, vol, prl, pol, sid2, hsc, heq⟩
    · simp [isInitEvent] at hinit
    · simp at heq
    · rw [show q = mkAudioQuery ph spd pit ito vol prl pol by injection heq]
      exact ⟨rfl, rfl⟩
  · intro env jobs e
    induction jobs with
    | nil => rfl
    | cons j rest ih =>
      unfold handlerMany
      dsimp only
      rw [handler_state_cached env j e, ih]
      rfl

theorem C9_query_format_fresh_witness :
    ((mkAudioQuery [7] 1 0 1 1 (1 / 10) (1 / 10)).outputSamplingRate = 24000 ∧
      (mkAudioQuery [7] 1 0 1 1 (1 / 10) (1 / 10)).outputStereo = false) ∧
    handlerMany okInit [some [("text", PyVal.vstr "hi")]] (some okEngine) =
      ([((handler okInit (some [("text", PyVal.vstr "hi")]) (some okEngine)).1,
          (handler okInit (some [("text", PyVal.vstr "hi")]) (some okEngine)).2.2)],
        some okEngine) :=
  ⟨C9_query_format_fresh.1 okInit (some [("text", PyVal.vstr "hi")]) (some okEngine)
      (mkAudioQuery [7] 1 0 1 1 (1 / 10) (1 / 10)) 1 (PyVal.vbool true)
      (List.Mem.tail _ (List.Mem.head _)),
   C9_query_format_fresh.2 okInit [some [("text", PyVal.vstr "hi")]] okEngine⟩

/-- C4 counterexample: with an engine exposing the query-first capability
(a default query whose pitch scale is 1/2), an input carrying only
`speed_scale` still gets the hard-coded phrase-first query — its pitch scale
is the global default 0, not the engine default 1/2, and the default-query
capability is never invoked (the trace holds no such call); the spec-modelled
query-first overlay would instead have kept the engine defaults. -/
theorem C4_hardcoded_cex :
    (handler okInit (some [("text", PyVal.vstr "a"), ("speed_scale", PyVal.vfloat 2)])
        (some qfEngine)).2.2 =
      [Event.accentPhrasesCall (PyVal.vstr "a") 1 (PyVal.vbool true),
       Event.synthesizeCall (mkAudioQuery [3] 2 0 1 1 (1 / 10) (1 / 10)) 1 (PyVal.vbool true)] ∧
    (mkAudioQuery [3] 2 0 1 1 (1 / 10) (1 / 10)).pitchScale ≠ qfDefaultQuery.pitchScale ∧
    specQueryFirstOverlay qfDefaultQuery
        [("text", PyVal.vstr "a"), ("speed_scale", PyVal.vfloat 2)] =
      some { qfDefaultQuery with speedScale := 2 } := by
  refine ⟨rfl, by norm_num [mkAudioQuery, qfDefaultQuery], rfl⟩

/-- C4 (amended): the query builder is hard-coded to the phrase-first
strategy: the engine's default-query capability is never consulted (no such
event ever appears in a trace), and when the scalar fields other than
`speed_scale` are absent from the input, the query passed to synthesis takes
the global hardcoded defaults for them (pitch 0, intonation 1, volume 1,
phoneme paddings 1/10), not engine default-query values. -/
theorem C4_phrase_first_only :
    (∀ (env : InitBehavior) (job : Option JobInput) (st : Option EngineBehavior)
        (t : PyVal) (s : Int), Event.defaultQueryCall t s ∉ (handler env job st).2.2) ∧
    (∀ (env : InitBehavior) (job : Option JobInput) (st : Option EngineBehavior)
        (q : AudioQuery) (sid : Int) (up : PyVal),
        Event.synthesizeCall q sid up ∈ (handler env job st).2.2 →
        List.lookup "pitch_scale" (job.getD []) = none →
        List.lookup "intonation_scale" (job.getD []) = none →
        List.lookup "volume_scale" (job.getD []) = none →
        List.lookup "pre_phoneme_length" (job.getD []) = none →
        List.lookup "post_phoneme_length" (job.getD []) = none →
        q.pitchScale = 0 ∧ q.intonationScale = 1 ∧ q.volumeScale = 1 ∧
        q.prePhonemeLength = 1 / 10 ∧ q.postPhonemeLength = 1 / 10) := by
  constructor
  · intro env job st t s h
    rcases handler_events env job st _ h with hinit | ⟨sid2, heq⟩
      | ⟨ph, spd, pit, ito, vol, prl, pol, sid2, hsc, heq⟩
    · simp [isInitEvent] at hinit
    · simp at heq
    · simp at heq
  · intro env job st q sid up h hpit hito hvol hprl hpol
    rcases handler_events env job st _ h with hinit | ⟨sid2, heq⟩
      | ⟨ph, spd, pit, ito, vol, prl, pol, sid2, hsc, heq⟩
    · simp [isInitEvent] at hinit
    · simp at heq
    · unfold scalarsOf at hsc
      rw [hpit, hito, hvol, hprl, hpol] at hsc
      simp only [Option.getD_none,
        show pyFloat (PyVal.vfloat 0) = some 0 from rfl,
        show pyFloat (PyVal.vfloat 1) = some 1 from rfl,
        show pyFloat (PyVal.vfloat (1 / 10)) = some (1 / 10) from rfl,
        Option.some_bind] at hsc
      rcases hspd : pyFloat ((List.lookup "speed_scale" (job.getD [])).getD (PyVal.vfloat 1))
        with _ | a
      · rw [hspd] at hsc; simp at hsc
      · rw [hspd] at hsc
        simp only [Option.some_bind, Option.some.injEq, Prod.mk.injEq] at hsc
        obtain ⟨hs1, hs2, hs3, hs4, hs5, hs6⟩ := hsc
        rw [show q = mkAudioQuery ph spd pit ito vol prl pol by injection heq]
        exact ⟨hs2.symm, hs3.symm, hs4.symm, hs5.symm, hs6.symm⟩

theorem C4_phrase_first_only_witness :
    (Event.defaultQueryCall (PyVal.vstr "a") 1 ∉
        (handler okInit (some [("text", PyVal.vstr "a"), ("speed_scale", PyVal.vfloat 2)])
          (some qfEngine)).2.2) ∧
    ((mkAudioQuery [3] 2 0 1 1 (1 / 10) (1 / 10)).pitchScale = 0 ∧
      (mkAudioQuery [3] 2 0 1 1 (1 / 10) (1 / 10)).intonationScale = 1 ∧
      (mkAudioQuery [3] 2 0 1 1 (1 / 10) (1 / 10)).volumeScale = 1 ∧
      (mkAudioQuery [3] 2 0 1 1 (1 / 10) (1 / 10)).prePhonemeLength = 1 / 10 ∧
      (mkAudioQuery [3] 2 0 1 1 (1 / 10) (1 / 10)).postPhonemeLength = 1 / 10) :=
  ⟨C4_phrase_first_only.1 okInit
      (some [("text", PyVal.vstr "a"), ("speed_scale", PyVal.vfloat 2)]) (some qfEngine)
      (PyVal.vstr "a") 1,
   C4_phrase_first_only.2 okInit
      (some [("text", PyVal.vstr "a"), ("speed_scale", PyVal.vfloat 2)]) (some qfEngine)
      (mkAudioQuery [3] 2 0 1 1 (1 / 10) (1 / 10)) 1 (PyVal.vbool true)
      (List.Mem.tail _ (List.Mem.head _)) rfl rfl rfl rfl rfl⟩

/-- C8: on input with only `text = "hello"` and a cached engine, the handler
requests accent phrases for style 1 with katakana-english enabled, builds
the query with the default scalars (speed 1, pitch 0, intonation 1, volume 1,
paddings 1/10), invokes synthesis for style 1 with interrogative upspeak
enabled, and — when synthesis succeeds — returns status success with the
base64 audio string, which decodes back to a valid WAV container whose
sampling rate is 24000 Hz. -/
theorem C8_hello_defaults (env : InitBehavior) (e : EngineBehavior)
    (ph : List AccentPhrase) (w : List Int)
    (hacc : e.createAccentPhrases (PyVal.vstr "hello") 1 (PyVal.vbool true) = Except.ok ph)
    (hsyn : e.synthesizeWave (mkAudioQuery ph 1 0 1 1 (1 / 10) (1 / 10)) 1 (PyVal.vbool true) =
      Except.ok w) :
    handler env (some [("text", PyVal.vstr "hello")]) (some e) =
      (Outcome.response (Response.success (b64Encode (wavEncode w)) 24000 "success"), some e,
        [Event.accentPhrasesCall (PyVal.vstr "hello") 1 (PyVal.vbool true),
         Event.synthesizeCall (mkAudioQuery ph 1 0 1 1 (1 / 10) (1 / 10)) 1
           (PyVal.vbool true)]) ∧
    b64Decode (b64Encode (wavEncode w)) = some (wavEncode w) ∧
    wavRateOf (wavEncode w) = some 24000 := by
  refine ⟨?_, b64_decode_encode _ (wavEncode_lt w), wavRateOf_wavEncode w⟩
  show (match e.createAccentPhrases (PyVal.vstr "hello") 1 (PyVal.vbool true) with
    | Except.error m =>
        (Outcome.response (Response.failed m "failed"), some e,
          [Event.accentPhrasesCall (PyVal.vstr "hello") 1 (PyVal.vbool true)])
    | Except.ok phrases =>
        match e.synthesizeWave (mkAudioQuery phrases 1 0 1 1 (1 / 10) (1 / 10)) 1
            (PyVal.vbool true) with
        | Except.error m =>
            (Outcome.response (Response.failed m "failed"), some e,
              [Event.accentPhrasesCall (PyVal.vstr "hello") 1 (PyVal.vbool true),
               Event.synthesizeCall (mkAudioQuery phrases 1 0 1 1 (1 / 10) (1 / 10)) 1
                 (PyVal.vbool true)])
        | Except.ok wave =>
            (Outcome.response (Response.success (b64Encode (wavEncode wave)) 24000 "success"),
              some e,
              [Event.accentPhrasesCall (PyVal.vstr "hello") 1 (PyVal.vbool true),
               Event.synthesizeCall (mkAudioQuery phrases 1 0 1 1 (1 / 10) (1 / 10)) 1
                 (PyVal.vbool true)])) = _
  rw [hacc]
  dsimp only
  rw [hsyn]

theorem C8_hello_defaults_witness :
    okEngine.createAccentPhrases (PyVal.vstr "hello") 1 (PyVal.vbool true) = Except.ok [7] ∧
    okEngine.synthesizeWave (mkAudioQuery [7] 1 0 1 1 (1 / 10) (1 / 10)) 1 (PyVal.vbool true) =
      Except.ok [0, 1000, -1000] ∧
    (handler okInit (some [("text", PyVal.vstr "hello")]) (some okEngine) =
        (Outcome.response
          (Response.success (b64Encode (wavEncode [0, 1000, -1000])) 24000 "success"),
          some okEngine,
          [Event.accentPhrasesCall (PyVal.vstr "hello") 1 (PyVal.vbool true),
           Event.synthesizeCall (mkAudioQuery [7] 1 0 1 1 (1 / 10) (1 / 10)) 1
             (PyVal.vbool true)]) ∧
      b64Decode (b64Encode (wavEncode [0, 1000, -1000])) = some (wavEncode [0, 1000, -1000]) ∧
      wavRateOf (wavEncode [0, 1000, -1000]) = some 24000) :=
  ⟨rfl, rfl, C8_hello_defaults okInit okEngine [7] [0, 1000, -1000] rfl rfl⟩

end Voicevox
